import Mathlib

/-!
Shallow embedding of the transaction lifecycle core of the repository:
the tiered USDT conversion calculator, the market-rate getter, the wallet
address validators, and the webhook-driven transaction update handlers
(`PaymentController` and `TransakController`).  Amounts and rates are
modelled as exact rationals; `Math.floor(x*100)/100` becomes `floor2`,
`parseFloat(x.toFixed(2))` becomes `round2`.  Fallible code returns
`Except`/`Option`; stateful handlers are explicit state-passing functions
that also return the list of notification publishes they emit.
-/

namespace StripIntegrate

/-- One entry of `USDTConversionService.CONVERSION_TIERS`:
`{minUSD, maxUSD, usdtRate, name}`; `maxUSD = none` models `Infinity`. -/
structure Tier where
  minUSD : ℚ
  maxUSD : Option ℚ
  usdtRate : ℚ
  name : String
  deriving DecidableEq, Repr

/-- Embeds `USDTConversionService.CONVERSION_TIERS` (usdtConversionService.js lines 7-13). -/
def CONVERSION_TIERS : List Tier :=
  [ ⟨0,    some 100,  85/100, "Starter"⟩,
    ⟨100,  some 250,  88/100, "Basic"⟩,
    ⟨250,  some 500,  90/100, "Standard"⟩,
    ⟨500,  some 1000, 91/100, "Premium"⟩,
    ⟨1000, none,      92/100, "VIP"⟩ ]

/-- Embeds `USDTConversionService.MIN_TRANSACTION`. -/
def MIN_TRANSACTION : ℚ := 10

/-- Embeds `USDTConversionService.MAX_TRANSACTION`. -/
def MAX_TRANSACTION : ℚ := 10000

/-- Embeds `USDTConversionService.MIN_PROFIT_MARGIN` (0.08). -/
def MIN_PROFIT_MARGIN : ℚ := 8/100

/-- The tier-membership test `usdAmount >= t.minUSD && usdAmount < t.maxUSD`;
a comparison against `Infinity` (`maxUSD = none`) is always true. -/
def Tier.matches (t : Tier) (usdAmount : ℚ) : Bool :=
  decide (t.minUSD ≤ usdAmount) &&
    (match t.maxUSD with
     | some m => decide (usdAmount < m)
     | none => true)

/-- Embeds `CONVERSION_TIERS.find(t => usdAmount >= t.minUSD && usdAmount < t.maxUSD)`,
also the body of `USDTConversionService.getTierInfo`. -/
def getTierInfo (usdAmount : ℚ) : Option Tier :=
  CONVERSION_TIERS.find? (fun t => t.matches usdAmount)

/-- Embeds `Math.floor(x * 100) / 100` — truncate to 2 decimal places. -/
def floor2 (q : ℚ) : ℚ := (⌊q * 100⌋ : ℚ) / 100

/-- Embeds `parseFloat(x.toFixed(2))` — round to 2 decimal places. -/
def round2 (q : ℚ) : ℚ := (round (q * 100) : ℚ) / 100

/-- The record returned by `USDTConversionService.calculateConversion`. -/
structure ConversionQuote where
  usdAmount : ℚ
  usdtAmount : ℚ
  exchangeRate : ℚ
  conversionFee : ℚ
  feePercentage : ℚ
  tierName : String
  deriving DecidableEq, Repr

/-- The three `throw new Error(...)` sites of `calculateConversion`. -/
inductive ConversionError where
  | outOfRange
  | noTier
  | insufficientMargin
  deriving DecidableEq, Repr

/-- Embeds `USDTConversionService.calculateConversion` (usdtConversionService.js
lines 22-70), with exact rational arithmetic. -/
def calculateConversion (usdAmount : ℚ) : Except ConversionError ConversionQuote :=
  if usdAmount < MIN_TRANSACTION ∨ usdAmount > MAX_TRANSACTION then
    .error .outOfRange
  else
    match getTierInfo usdAmount with
    | none => .error .noTier
    | some tier =>
      let usdtAmount := floor2 (usdAmount * tier.usdtRate)
      let conversionFee := usdAmount - usdtAmount
      let feePercentage := conversionFee / usdAmount * 100
      if feePercentage / 100 < MIN_PROFIT_MARGIN then
        .error .insufficientMargin
      else
        .ok ⟨usdAmount, usdtAmount, tier.usdtRate, conversionFee,
             round2 feePercentage, tier.name⟩

/-- The hard-coded fallback rate returned by `getMarketRate` on any failure
(usdtConversionService.js line 115: `return 0.9995`). -/
def FALLBACK_RATE : ℚ := 9995/10000

/-- One cached `ExchangeRate` document: its rate and expiry instant
(milliseconds since epoch, as `new Date(Date.now() + 5*60*1000)`). -/
structure CachedRate where
  rate : ℚ
  expiresAt : Nat
  deriving DecidableEq, Repr

/-- Embeds `USDTConversionService.getMarketRate` (usdtConversionService.js lines
75-117).  `cached` is the stored `ExchangeRate` document (if any), `now` the
current time in milliseconds, and `feed` the outcome of the external
Binance fetch (`none` models a failed/erroring fetch).  The Mongo query
filters `expiresAt: {$gt: now}`, so only a non-expired document is used;
the `catch` block returns `FALLBACK_RATE` and mutates nothing. -/
def getMarketRate (cached : Option CachedRate) (now : Nat) (feed : Option ℚ) :
    ℚ × Option CachedRate :=
  match cached.filter (fun c => decide (now < c.expiresAt)) with
  | some c => (c.rate, cached)
  | none =>
    match feed with
    | some r => (r, some ⟨r, now + 5 * 60 * 1000⟩)
    | none => (FALLBACK_RATE, cached)

/-- JS strings are modelled as lists of characters (so that `trim`,
`toLowerCase` and prefix tests stay kernel-computable). -/
abbrev JSString := List Char

/-- Embeds `String.prototype.trim`: strip leading and trailing whitespace. -/
def trimChars (cs : JSString) : JSString :=
  ((cs.dropWhile Char.isWhitespace).reverse.dropWhile Char.isWhitespace).reverse

/-- Embeds `String.prototype.startsWith`. -/
def startsWithChars (cs p : JSString) : Bool :=
  decide (cs.take p.length = p)

/-- Embeds `String.prototype.toLowerCase`. -/
def lowerChars (cs : JSString) : JSString :=
  cs.map Char.toLower

/-- Embeds `[A-Za-z1-9]` — the character class of the TRC20 regex. -/
def isBase58Char (c : Char) : Bool :=
  c.isUpper || c.isLower || ('1' ≤ c && c ≤ '9')

/-- Embeds `[a-fA-F0-9]` — the character class of the ERC20/BEP20 regex. -/
def isHexChar (c : Char) : Bool :=
  c.isDigit || ('a' ≤ c && c ≤ 'f') || ('A' ≤ c && c ≤ 'F')

/-- Embeds `USDTConversionService.validateWalletAddress` (usdtConversionService.js
lines 184-199): regex tests `^T[A-Za-z1-9]{33}$` for TRC20 and
`^0x[a-fA-F0-9]{40}$` for ERC20/BEP20; `!address` (empty string) is falsy. -/
def svcValidateWalletAddress (address : JSString) (network : JSString) : Bool :=
  if address = [] then false
  else if network = "TRC20".toList then
    address.length == 34 && startsWithChars address ['T'] &&
      (address.drop 1).all isBase58Char
  else if network = "ERC20".toList ∨ network = "BEP20".toList then
    address.length == 42 && startsWithChars address ['0', 'x'] &&
      (address.drop 2).all isHexChar
  else false

/-- Embeds `TransakController.validateWalletAddress` (transakController.js lines
315-339): trims the address, lowercases the network, then checks prefix and
exact length per network family. -/
def transakValidateWalletAddress (address network : JSString) : Bool :=
  if address = [] then false
  else
    let a := trimChars address
    let n := lowerChars network
    if n = "tron".toList ∨ n = "trc20".toList then
      startsWithChars a ['T'] && a.length == 34
    else if n = "ethereum".toList ∨ n = "erc20".toList ∨ n = "polygon".toList ∨
        n = "bsc".toList ∨ n = "bep20".toList then
      startsWithChars a ['0', 'x'] && a.length == 42
    else false

/-- The `status` enum of the Transaction schema (Transaction.js). -/
inductive TxStatus where
  | initiated
  | pending
  | payment_processing
  | payment_confirmed
  | processing
  | converting_to_usdt
  | usdt_sent
  | completed
  | failed
  | cancelled
  deriving DecidableEq, Repr

/-- Terminal statuses per the spec: `completed`, `failed`, `cancelled`.
(The code itself has no notion of terminality; this predicate only states
claims about it.) -/
def TxStatus.isTerminal : TxStatus → Bool
  | .completed => true
  | .failed => true
  | .cancelled => true
  | _ => false

/-- The fields of a Transaction document that the webhook handlers read or
write (Transaction.js; provider-specific metadata echo-back is omitted). -/
structure Transaction where
  status : TxStatus
  paymentConfirmedAt : Option Nat := none
  usdtSentAt : Option Nat := none
  completedAt : Option Nat := none
  transactionHash : Option String := none
  errorMessage : Option String := none
  amountUSD : ℚ := 0
  usdtAmount : ℚ := 0
  walletAddress : String := ""
  deriving DecidableEq, Repr

/-- The result of `USDTConversionService.simulateUSDTTransfer` /
`executeUSDTTransfer` as consumed by `processUSDTConversion`. -/
structure TransferResult where
  transactionHash : String
  deriving DecidableEq, Repr

/-- Embeds `PaymentController.completeTransaction` (paymentController.js lines
222-234): set `completed`, stamp `completedAt`, save, emit one
`transaction_update` event.  Returns the saved transaction and the list of
statuses published to the notification channel. -/
def completeTransaction (tx : Transaction) (now : Nat) :
    Transaction × List TxStatus :=
  ({ tx with status := .completed, completedAt := some now }, [.completed])

/-- Embeds `PaymentController.processUSDTConversion` (paymentController.js lines
162-217): set `converting_to_usdt` (save + emit); run the transfer; on
success set `usdt_sent` with `usdtSentAt` and `transactionHash` (save +
emit) then call `completeTransaction`; on error set `failed` with
`errorMessage` (save + emit). -/
def processUSDTConversion (tx : Transaction) (now : Nat)
    (transfer : Except String TransferResult) : Transaction × List TxStatus :=
  let tx1 := { tx with status := .converting_to_usdt }
  match transfer with
  | .ok tr =>
    let tx2 := { tx1 with
      status := .usdt_sent, usdtSentAt := some now,
      transactionHash := some tr.transactionHash }
    let stepC := completeTransaction tx2 now
    (stepC.1, .converting_to_usdt :: .usdt_sent :: stepC.2)
  | .error e =>
    ({ tx1 with status := .failed, errorMessage := some e },
     [.converting_to_usdt, .failed])

/-- Embeds `PaymentController.handlePaymentSuccess` (paymentController.js lines
124-157): resolve the transaction by `paymentIntentId` (`none` models a
failed lookup, which returns with no mutation); otherwise set
`payment_confirmed` with `paymentConfirmedAt` (save + emit) and run
`processUSDTConversion`. -/
def handlePaymentSuccess (resolved : Option Transaction) (now : Nat)
    (transfer : Except String TransferResult) :
    Option Transaction × List TxStatus :=
  match resolved with
  | none => (none, [])
  | some tx =>
    let tx1 := { tx with
      status := .payment_confirmed, paymentConfirmedAt := some now }
    let step := processUSDTConversion tx1 now transfer
    (some step.1, .payment_confirmed :: step.2)

/-- Embeds `PaymentController.handlePaymentFailed` (paymentController.js lines
239-265): set `failed` with the error message from the provider (save + emit). -/
def handlePaymentFailed (resolved : Option Transaction) (msg : String) :
    Option Transaction × List TxStatus :=
  match resolved with
  | none => (none, [])
  | some tx =>
    (some { tx with status := .failed, errorMessage := some msg }, [.failed])

/-- Embeds `PaymentController.handlePaymentCanceled` (paymentController.js lines
270-293): set `failed` (not `cancelled`) with errorMessage
`"Payment was canceled"` (save + emit). -/
def handlePaymentCanceled (resolved : Option Transaction) :
    Option Transaction × List TxStatus :=
  match resolved with
  | none => (none, [])
  | some tx =>
    (some { tx with
      status := .failed, errorMessage := some "Payment was canceled" },
     [.failed])

/-- The Stripe webhook event types dispatched in
`PaymentController.handleWebhook`. -/
inductive StripeEvent where
  | succeeded
  | paymentFailed (msg : String)
  | canceled
  | other
  deriving DecidableEq, Repr

/-- Embeds `PaymentController.handleWebhook` (paymentController.js lines 81-119)
after successful signature verification: dispatch on the event type and
respond `{received: true}` (the handlers swallow their own errors, so the
response is success regardless of the lookup outcome).  Returns
(response-success, saved transaction, published statuses). -/
def handleWebhook (resolved : Option Transaction) (e : StripeEvent)
    (now : Nat) (transfer : Except String TransferResult) :
    Bool × Option Transaction × List TxStatus :=
  match e with
  | .succeeded =>
    let r := handlePaymentSuccess resolved now transfer
    (true, r.1, r.2)
  | .paymentFailed msg =>
    let r := handlePaymentFailed resolved msg
    (true, r.1, r.2)
  | .canceled =>
    let r := handlePaymentCanceled resolved
    (true, r.1, r.2)
  | .other => (true, resolved, [])

/-- The Transak webhook `eventName` values dispatched in
`TransakController.handleWebhook`. -/
inductive TransakEvent where
  | orderCreated (transakOrderId : String)
  | orderProcessing
  | orderCompleted (cryptoAmount : Option ℚ) (transactionHash : Option String)
  | orderFailed (statusMessage : Option String)
  | orderCancelled
  | unknown
  deriving DecidableEq, Repr

/-- Embeds `TransakController.handleWebhook` (transakController.js lines 212-310):
resolve by `partnerOrderId` (`none` → 404 response, no mutation); otherwise
switch on the event name, save once, and emit one `transaction_update`
event with the resulting status.  Returns (response-success, saved
transaction, published statuses). -/
def transakHandleWebhook (resolved : Option Transaction) (e : TransakEvent)
    (now : Nat) : Bool × Option Transaction × List TxStatus :=
  match resolved with
  | none => (false, none, [])
  | some tx =>
    let tx1 :=
      match e with
      | .orderCreated _ => { tx with status := .pending }
      | .orderProcessing => { tx with status := .processing }
      | .orderCompleted cryptoAmount hash =>
        let t := { tx with
          status := .completed, completedAt := some now, usdtSentAt := some now }
        let t := match cryptoAmount with
          | some q => { t with usdtAmount := q }
          | none => t
        match hash with
        | some h => { t with transactionHash := some h }
        | none => t
      | .orderFailed msg =>
        { tx with status := .failed, errorMessage := some (msg.getD "Order failed") }
      | .orderCancelled => { tx with status := .cancelled }
      | .unknown => tx
    (true, some tx1, [tx1.status])

/-- The outcomes of `PaymentController.createPaymentIntent`. -/
inductive CreateIntentOutcome where
  | invalidAddress
  | conversionError (e : ConversionError)
  | created (q : ConversionQuote)
  deriving DecidableEq, Repr

/-- Embeds `PaymentController.createPaymentIntent` (paymentController.js lines
11-76): validate the wallet address, compute the conversion (a thrown
conversion error propagates to the error middleware), and only then create
the Transaction record.  The `Bool` records whether `Transaction.create`
was reached. -/
def createPaymentIntent (usdAmount : ℚ) (walletAddress network : JSString) :
    CreateIntentOutcome × Bool :=
  if ¬ svcValidateWalletAddress walletAddress network then
    (.invalidAddress, false)
  else
    match calculateConversion usdAmount with
    | .error e => (.conversionError e, false)
    | .ok q => (.created q, true)

/-- The outcomes of `TransakController.createOrder`. -/
inductive CreateOrderOutcome where
  | missingFields
  | amountOutOfRange
  | invalidAddress
  | created (estimatedUSDT : ℚ)
  deriving DecidableEq, Repr

/-- Embeds `TransakController.createOrder` (transakController.js lines 21-91):
reject missing fields, then `usdAmount < 30 || usdAmount > 10000`, then an
invalid address — each before `Transaction.create`; otherwise create the
record with `estimatedUSDT = usdAmount * 0.96`.  The `Bool` records whether
`Transaction.create` was reached. -/
def transakCreateOrder (usdAmount : Option ℚ)
    (walletAddress network : Option JSString) : CreateOrderOutcome × Bool :=
  match usdAmount, walletAddress, network with
  | some a, some w, some n =>
    if a < 30 ∨ a > 10000 then (.amountOutOfRange, false)
    else if ¬ transakValidateWalletAddress w n then (.invalidAddress, false)
    else (.created (a * (96/100)), true)
  | _, _, _ => (.missingFields, false)



/-! ### Helper lemmas shared by several theorems -/

/-- Truncation to 2 decimals never rounds up. -/
theorem floor2_le (q : ℚ) : floor2 q ≤ q := by
  unfold floor2
  rw [div_le_iff₀ (by norm_num : (0:ℚ) < 100)]
  exact Int.floor_le _

/-- Rounding to 2 decimals is monotone. -/
theorem round2_mono {p q : ℚ} (h : p ≤ q) : round2 p ≤ round2 q := by
  unfold round2
  have h2 : round (p * 100) ≤ round (q * 100) := by
    rw [round_eq, round_eq]
    exact Int.floor_le_floor (by linarith)
  have h3 : ((round (p * 100) : ℤ) : ℚ) ≤ ((round (q * 100) : ℤ) : ℚ) :=
    Int.cast_le.mpr h2
  linarith

/-- Rounding 8 to 2 decimals gives 8. -/
theorem round2_eight : round2 8 = 8 := by
  unfold round2
  rw [show (8:ℚ) * 100 = ((800:ℤ):ℚ) by norm_num, round_intCast]
  norm_num

/-- For an amount at least 10, the tier lookup succeeds and returns a tier
whose rate lies in [0.85, 0.92]. -/
theorem tier_cases (a : ℚ) (h1 : 10 ≤ a) :
    ∃ t, getTierInfo a = some t ∧ 85/100 ≤ t.usdtRate ∧ t.usdtRate ≤ 92/100 := by
  by_cases c1 : a < 100
  · refine ⟨⟨0, some 100, 85/100, "Starter"⟩, ?_, by norm_num, by norm_num⟩
    have e0 : decide ((0:ℚ) ≤ a) = true := decide_eq_true (by linarith)
    have e1 : decide (a < 100) = true := decide_eq_true c1
    simp [getTierInfo, CONVERSION_TIERS, List.find?, Tier.matches, e0, e1]
  · push_neg at c1
    by_cases c2 : a < 250
    · refine ⟨⟨100, some 250, 88/100, "Basic"⟩, ?_, by norm_num, by norm_num⟩
      have e1 : decide (a < 100) = false := decide_eq_false (by linarith)
      have e2 : decide ((100:ℚ) ≤ a) = true := decide_eq_true c1
      have e3 : decide (a < 250) = true := decide_eq_true c2
      simp [getTierInfo, CONVERSION_TIERS, List.find?, Tier.matches, e1, e2, e3]
    · push_neg at c2
      by_cases c3 : a < 500
      · refine ⟨⟨250, some 500, 90/100, "Standard"⟩, ?_, by norm_num, by norm_num⟩
        have e1 : decide (a < 100) = false := decide_eq_false (by linarith)
        have e2 : decide (a < 250) = false := decide_eq_false (by linarith)
        have e3 : decide ((250:ℚ) ≤ a) = true := decide_eq_true c2
        have e4 : decide (a < 500) = true := decide_eq_true c3
        simp [getTierInfo, CONVERSION_TIERS, List.find?, Tier.matches, e1, e2, e3, e4]
      · push_neg at c3
        by_cases c4 : a < 1000
        · refine ⟨⟨500, some 1000, 91/100, "Premium"⟩, ?_, by norm_num, by norm_num⟩
          have e1 : decide (a < 100) = false := decide_eq_false (by linarith)
          have e2 : decide (a < 250) = false := decide_eq_false (by linarith)
          have e3 : decide (a < 500) = false := decide_eq_false (by linarith)
          have e4 : decide ((500:ℚ) ≤ a) = true := decide_eq_true c3
          have e5 : decide (a < 1000) = true := decide_eq_true c4
          simp [getTierInfo, CONVERSION_TIERS, List.find?, Tier.matches, e1, e2, e3,
            e4, e5]
        · push_neg at c4
          refine ⟨⟨1000, none, 92/100, "VIP"⟩, ?_, by norm_num, by norm_num⟩
          have e1 : decide (a < 100) = false := decide_eq_false (by linarith)
          have e2 : decide (a < 250) = false := decide_eq_false (by linarith)
          have e3 : decide (a < 500) = false := decide_eq_false (by linarith)
          have e4 : decide (a < 1000) = false := decide_eq_false (by linarith)
          have e5 : decide ((1000:ℚ) ≤ a) = true := decide_eq_true c4
          simp [getTierInfo, CONVERSION_TIERS, List.find?, Tier.matches, e1, e2, e3,
            e4, e5]

/-- For every amount in the accepted range, `calculateConversion` succeeds,
truncates rather than rounds up, computes the fee as the difference, and
keeps the fee percentage at or above 8. -/
theorem calcConv_ok_aux (a : ℚ) (h1 : 10 ≤ a) (h2 : a < 10000) :
    ∃ t q, getTierInfo a = some t ∧ calculateConversion a = .ok q ∧
      q.usdtAmount = floor2 (a * t.usdtRate) ∧
      q.conversionFee = a - q.usdtAmount ∧
      q.usdtAmount ≤ a ∧ 8 ≤ q.feePercentage := by
  obtain ⟨t, ht, hlo, hhi⟩ := tier_cases a h1
  have hpos : (0:ℚ) < a := by linarith
  have hule : floor2 (a * t.usdtRate) ≤ a * t.usdtRate := floor2_le _
  have hua : floor2 (a * t.usdtRate) ≤ a := le_trans hule (by nlinarith)
  have hfee : 8 ≤ (a - floor2 (a * t.usdtRate)) / a * 100 := by
    rw [div_mul_eq_mul_div, le_div_iff₀ hpos]
    nlinarith
  have hnot : ¬((a - floor2 (a * t.usdtRate)) / a * 100 / 100 < MIN_PROFIT_MARGIN) := by
    unfold MIN_PROFIT_MARGIN
    intro hcon
    linarith
  have hcond : ¬(a < MIN_TRANSACTION ∨ a > MAX_TRANSACTION) := by
    unfold MIN_TRANSACTION MAX_TRANSACTION
    push_neg
    exact ⟨h1, by linarith⟩
  refine ⟨t, ⟨a, floor2 (a * t.usdtRate), t.usdtRate, a - floor2 (a * t.usdtRate),
    round2 ((a - floor2 (a * t.usdtRate)) / a * 100), t.name⟩, ht, ?_, rfl, rfl, hua, ?_⟩
  · simp only [calculateConversion, if_neg hcond, ht, if_neg hnot]
  · calc (8:ℚ) = round2 8 := round2_eight.symm
      _ ≤ _ := round2_mono hfee

/-! ### Claim theorems -/

/-- C3: for every usdAmount in [10, 10000), `calculateConversion` succeeds
and returns a quote with usdtAmount ≤ usdAmount and feePercentage ≥ 8,
where usdtAmount is the amount times the tier rate truncated (never rounded
up) to 2 decimal places and the fee is usdAmount minus usdtAmount. -/
theorem calculateConversion_in_range_ok (a : ℚ) (h1 : 10 ≤ a) (h2 : a < 10000) :
    ∃ t q, getTierInfo a = some t ∧ calculateConversion a = .ok q ∧
      q.usdtAmount = floor2 (a * t.usdtRate) ∧
      q.conversionFee = a - q.usdtAmount ∧
      q.usdtAmount ≤ a ∧ 8 ≤ q.feePercentage :=
  calcConv_ok_aux a h1 h2

/-- Witness for C3 at the concrete amount 450. -/
theorem calculateConversion_in_range_ok_witness :
    (10:ℚ) ≤ 450 ∧ (450:ℚ) < 10000 ∧
      (∃ t q, getTierInfo 450 = some t ∧ calculateConversion 450 = .ok q ∧
        q.usdtAmount = floor2 (450 * t.usdtRate) ∧
        q.conversionFee = 450 - q.usdtAmount ∧
        q.usdtAmount ≤ 450 ∧ 8 ≤ q.feePercentage) :=
  ⟨by norm_num, by norm_num,
   calculateConversion_in_range_ok 450 (by norm_num) (by norm_num)⟩

/-- C4: tier lookup is exact at boundaries and in the interior — 99.99 maps
to Starter (rate 0.85), 100 to Basic (rate 0.88), 9999.99 to VIP (rate
0.92), and `calculateConversion 450` yields usdtAmount 405 in tier Standard
with rate 0.90. -/
theorem tier_boundaries_exact :
    getTierInfo (9999/100) = some ⟨0, some 100, 85/100, "Starter"⟩ ∧
    getTierInfo 100 = some ⟨100, some 250, 88/100, "Basic"⟩ ∧
    getTierInfo (999999/100) = some ⟨1000, none, 92/100, "VIP"⟩ ∧
    calculateConversion 450 = .ok ⟨450, 405, 90/100, 45, 10, "Standard"⟩ := by
  refine ⟨?_, ?_, ?_, ?_⟩ <;>
    norm_num [calculateConversion, getTierInfo, CONVERSION_TIERS, Tier.matches,
      List.find?, floor2, round2, MIN_TRANSACTION, MAX_TRANSACTION,
      MIN_PROFIT_MARGIN]

/-- C5: every amount strictly below 10 or strictly above 10000 makes
`calculateConversion` fail with the out-of-range error; on the payment
intent path the request then creates no transaction record (the response is
either the invalid-address rejection or the propagated out-of-range
error). -/
theorem out_of_range_rejected_without_mutation :
    calculateConversion 5 = .error .outOfRange ∧
    calculateConversion 10001 = .error .outOfRange ∧
    (∀ (a : ℚ) (w n : JSString), (a < 10 ∨ a > 10000) →
      (createPaymentIntent a w n).2 = false ∧
      ((createPaymentIntent a w n).1 = .invalidAddress ∨
        (createPaymentIntent a w n).1 = .conversionError .outOfRange)) := by
  refine ⟨?_, ?_, ?_⟩
  · norm_num [calculateConversion, MIN_TRANSACTION, MAX_TRANSACTION]
  · norm_num [calculateConversion, MIN_TRANSACTION, MAX_TRANSACTION]
  · intro a w n h
    have hcalc : calculateConversion a = .error .outOfRange := by
      have : a < MIN_TRANSACTION ∨ a > MAX_TRANSACTION := by
        unfold MIN_TRANSACTION MAX_TRANSACTION
        exact h
      simp only [calculateConversion, if_pos this]
    by_cases hv : svcValidateWalletAddress w n
    · simp [createPaymentIntent, hv, hcalc]
    · simp [createPaymentIntent, hv]

/-- Witness for C5 at amount 5 with a well-formed TRC20 address. -/
theorem out_of_range_rejected_without_mutation_witness :
    ((5:ℚ) < 10 ∨ (5:ℚ) > 10000) ∧
    (createPaymentIntent 5 "TJRabPrwbZy45sbavfcjinPJC18kjpRTv8".toList "TRC20".toList).2 = false ∧
    ((createPaymentIntent 5 "TJRabPrwbZy45sbavfcjinPJC18kjpRTv8".toList "TRC20".toList).1 =
        .invalidAddress ∨
      (createPaymentIntent 5 "TJRabPrwbZy45sbavfcjinPJC18kjpRTv8".toList "TRC20".toList).1 =
        .conversionError .outOfRange) :=
  ⟨Or.inl (by norm_num),
   (out_of_range_rejected_without_mutation.2.2 5 _ _ (Or.inl (by norm_num))).1,
   (out_of_range_rejected_without_mutation.2.2 5 _ _ (Or.inl (by norm_num))).2⟩

/-- C10: the Transak order-creation path enforces a stricter minimum of 30:
for every amount in [10, 30) the order is rejected as out of range before
any transaction record is created, while `calculateConversion` accepts the
same amount. -/
theorem transak_min_stricter_than_global (a : ℚ) (w n : JSString)
    (h1 : 10 ≤ a) (h2 : a < 30) :
    (transakCreateOrder (some a) (some w) (some n)).1 = .amountOutOfRange ∧
    (transakCreateOrder (some a) (some w) (some n)).2 = false ∧
    ∃ q, calculateConversion a = .ok q := by
  have hr : a < 30 ∨ a > 10000 := Or.inl h2
  refine ⟨?_, ?_, ?_⟩
  · simp [transakCreateOrder, if_pos hr]
  · simp [transakCreateOrder, if_pos hr]
  · obtain ⟨t, q, _, hq, _⟩ := calcConv_ok_aux a h1 (by linarith)
    exact ⟨q, hq⟩

/-- Witness for C10 at the concrete amount 15. -/
theorem transak_min_stricter_than_global_witness :
    (10:ℚ) ≤ 15 ∧ (15:ℚ) < 30 ∧
    (transakCreateOrder (some 15) (some "w".toList) (some "tron".toList)).1 = .amountOutOfRange ∧
    (transakCreateOrder (some 15) (some "w".toList) (some "tron".toList)).2 = false ∧
    (∃ q, calculateConversion 15 = .ok q) := by
  obtain ⟨ho, hf, hq⟩ :=
    transak_min_stricter_than_global 15 "w".toList "tron".toList (by norm_num) (by norm_num)
  exact ⟨by norm_num, by norm_num, ho, hf, hq⟩

/-- C7: whenever the transfer result applied by `processUSDTConversion`
succeeds, the transaction passes through `usdt_sent` and is automatically
transitioned to `completed` in the same processing step, with `completedAt`
stamped; no other state intervenes between dispatch and completion. -/
theorem usdt_sent_auto_completes (tx : Transaction) (now : Nat)
    (tr : TransferResult) :
    (processUSDTConversion tx now (.ok tr)).2 =
        [.converting_to_usdt, .usdt_sent, .completed] ∧
    (processUSDTConversion tx now (.ok tr)).1.status = .completed ∧
    (processUSDTConversion tx now (.ok tr)).1.completedAt = some now ∧
    (processUSDTConversion tx now (.ok tr)).1.usdtSentAt = some now ∧
    (processUSDTConversion tx now (.ok tr)).1.transactionHash =
        some tr.transactionHash := by
  simp [processUSDTConversion, completeTransaction]

/-- C9: the Transak wallet address validator checks the trimmed address:
every trimmed 34-character value starting with T passes the T-family
(TRC20) check, and every trimmed 41-character value starting with 0x fails
the 0x-family (ERC20) check, which requires exactly 42 characters. -/
theorem address_validator_families :
    (∀ address : JSString, startsWithChars (trimChars address) ['T'] = true →
        (trimChars address).length = 34 →
        transakValidateWalletAddress address "TRC20".toList = true) ∧
    (∀ address : JSString, startsWithChars (trimChars address) ['0', 'x'] = true →
        (trimChars address).length = 41 →
        transakValidateWalletAddress address "ERC20".toList = false) := by
  constructor
  · intro address h1 h2
    have hne : ¬ (address = []) := by
      intro he
      rw [he] at h1
      simp [trimChars, startsWithChars] at h1
    simp only [transakValidateWalletAddress, if_neg hne]
    rw [if_pos (Or.inr (by decide))]
    simp [h1, h2]
  · intro address h1 h2
    by_cases hne : address = []
    · rw [hne] at h1
      simp [trimChars, startsWithChars] at h1
    · simp only [transakValidateWalletAddress, if_neg hne]
      rw [if_neg (by decide), if_pos (Or.inr (Or.inl (by decide)))]
      simp [h2]

/-- Witness for C9 at two concrete addresses. -/
theorem address_validator_families_witness :
    transakValidateWalletAddress "TJRabPrwbZy45sbavfcjinPJC18kjpRTv8".toList
        "TRC20".toList = true ∧
    transakValidateWalletAddress "0xaaaaaaaaaaaaaaaaaaaaaaaaaaaaaaaaaaaaaaa".toList
        "ERC20".toList = false :=
  ⟨address_validator_families.1 _ (by decide) (by decide),
   address_validator_families.2 _ (by decide) (by decide)⟩

/-- C1 counterexample: delivering the same `payment_intent.succeeded` event
twice against a concrete pending transaction publishes four notifications
per delivery — eight in total, and the second delivery is not a no-op — so
the claim that a duplicate delivery "triggers exactly one notification
publish, not two" is false on the code (there is no providerEventId
dedup). -/
theorem webhook_replay_republishes_cex :
    (handleWebhook (some ({ status := .pending } : Transaction)) .succeeded 0
        (.ok ⟨"a1b2"⟩)).2.2.length = 4 ∧
    (handleWebhook
        ((handleWebhook (some ({ status := .pending } : Transaction)) .succeeded 0
          (.ok ⟨"a1b2"⟩)).2.1) .succeeded 0 (.ok ⟨"a1b2"⟩)).2.2.length = 4 ∧
    ((handleWebhook (some ({ status := .pending } : Transaction)) .succeeded 0
        (.ok ⟨"a1b2"⟩)).2.2 ++
      (handleWebhook
        ((handleWebhook (some ({ status := .pending } : Transaction)) .succeeded 0
          (.ok ⟨"a1b2"⟩)).2.1) .succeeded 0 (.ok ⟨"a1b2"⟩)).2.2).length ≠ 1 := by
  refine ⟨rfl, rfl, by decide⟩

/-- C1 amended: delivering the same success event twice yields the same
resulting status as delivering it once and returns success to the provider
both times, but the second delivery is not a no-op — it publishes exactly
the same (non-empty) notification sequence again, because the code keeps no
providerEventId dedup set. -/
theorem webhook_replay_same_status_republishes (tx : Transaction) (now : Nat)
    (transfer : Except String TransferResult) :
    (handleWebhook (some tx) .succeeded now transfer).1 = true ∧
    (handleWebhook ((handleWebhook (some tx) .succeeded now transfer).2.1)
        .succeeded now transfer).1 = true ∧
    ((handleWebhook ((handleWebhook (some tx) .succeeded now transfer).2.1)
        .succeeded now transfer).2.1).map Transaction.status =
      ((handleWebhook (some tx) .succeeded now transfer).2.1).map
        Transaction.status ∧
    (handleWebhook ((handleWebhook (some tx) .succeeded now transfer).2.1)
        .succeeded now transfer).2.2 =
      (handleWebhook (some tx) .succeeded now transfer).2.2 ∧
    (handleWebhook (some tx) .succeeded now transfer).2.2 ≠ [] := by
  cases transfer <;>
    simp [handleWebhook, handlePaymentSuccess, processUSDTConversion,
      completeTransaction]

/-- C2 counterexample: a `payment_intent.canceled` webhook against a
concrete transaction that is already in the terminal status `completed`
is not rejected: the status is overwritten to `failed` and a notification
is published, so the claim that terminal transactions reject transitions
with no side effects is false on the code (no AlreadyTerminalError exists). -/
theorem terminal_transition_applied_cex :
    (handlePaymentCanceled (some
        ({ status := .completed, completedAt := some 5 } : Transaction))).1.map
      Transaction.status = some .failed ∧
    some TxStatus.failed ≠ some TxStatus.completed ∧
    (handlePaymentCanceled (some
        ({ status := .completed, completedAt := some 5 } : Transaction))).2 =
      [.failed] ∧
    ([TxStatus.failed] : List TxStatus) ≠ [] := by
  refine ⟨rfl, by decide, rfl, by decide⟩

/-- C2 amended: a transition request on a transaction whose status is
terminal (completed, failed or cancelled) is NOT rejected: the cancel
handler overwrites the status to `failed` and publishes, the success
handler re-runs the whole pipeline to `completed` publishing four
notifications, and the Transak cancel event overwrites to `cancelled` and
publishes — the code has no AlreadyTerminalError and no terminal-status
guard. -/
theorem terminal_transition_not_rejected (tx : Transaction) (now : Nat)
    (tr : TransferResult) (h : tx.status.isTerminal = true) :
    (handlePaymentCanceled (some tx)).1.map Transaction.status =
        some .failed ∧
    (handlePaymentCanceled (some tx)).2 = [.failed] ∧
    ((handleWebhook (some tx) .succeeded now (.ok tr)).2.1).map
        Transaction.status = some .completed ∧
    (handleWebhook (some tx) .succeeded now (.ok tr)).2.2 =
      [.payment_confirmed, .converting_to_usdt, .usdt_sent, .completed] ∧
    ((transakHandleWebhook (some tx) .orderCancelled now).2.1).map
        Transaction.status = some .cancelled ∧
    (transakHandleWebhook (some tx) .orderCancelled now).2.2 = [.cancelled] := by
  refine ⟨rfl, rfl, ?_, ?_, rfl, rfl⟩ <;>
    simp [handleWebhook, handlePaymentSuccess, processUSDTConversion,
      completeTransaction]

/-- Witness for C2 (amended) at a concrete completed transaction. -/
theorem terminal_transition_not_rejected_witness :
    TxStatus.isTerminal
        ({ status := .completed, completedAt := some 5 } : Transaction).status =
      true ∧
    (handlePaymentCanceled (some
        ({ status := .completed, completedAt := some 5 } : Transaction))).1.map
      Transaction.status = some .failed :=
  ⟨by decide,
   (terminal_transition_not_rejected
     ({ status := .completed, completedAt := some 5 }) 0 ⟨"a1b2"⟩ (by decide)).1⟩

/-- C6 counterexample: a Stripe `payment_intent.canceled` event resolving to
a concrete pending (non-terminal) transaction sets status `failed`, not
`cancelled`, so the claim that every provider cancel event maps to
`cancelled` is false on the code. -/
theorem stripe_cancel_maps_to_failed_cex :
    (handlePaymentCanceled (some ({ status := .pending } : Transaction))).1.map
        Transaction.status = some .failed ∧
    some TxStatus.failed ≠ some TxStatus.cancelled := by
  refine ⟨rfl, by decide⟩

/-- C6 amended: for a cancel event resolving to a non-terminal transaction,
the Transak reconciler (`ORDER_CANCELLED`) maps to `cancelled`, but the
Stripe reconciler (`payment_intent.canceled`) maps to `failed` with
errorMessage "Payment was canceled". -/
theorem cancel_event_status_mapping (tx : Transaction) (now : Nat)
    (h : tx.status.isTerminal = false) :
    ((transakHandleWebhook (some tx) .orderCancelled now).2.1).map
        Transaction.status = some .cancelled ∧
    (handlePaymentCanceled (some tx)).1.map Transaction.status =
        some .failed ∧
    (handlePaymentCanceled (some tx)).1.map Transaction.errorMessage =
        some (some "Payment was canceled") := by
  exact ⟨rfl, rfl, rfl⟩

/-- Witness for C6 (amended) at a concrete pending transaction. -/
theorem cancel_event_status_mapping_witness :
    TxStatus.isTerminal
        ({ status := .pending } : Transaction).status = false ∧
    ((transakHandleWebhook (some ({ status := .pending } : Transaction))
        .orderCancelled 0).2.1).map Transaction.status = some .cancelled :=
  ⟨by decide,
   (cancel_event_status_mapping ({ status := .pending }) 0 (by decide)).1⟩

/-- C8 counterexample: with a stored rate that has expired (a stale prior
value exists) and a failing rate feed, `getMarketRate` returns the
hard-coded fallback 0.9995, not the stale prior value, so the claim that
the last known value is returned on refresh failure is false on the code
(the cache query filters out expired documents). -/
theorem stale_rate_not_returned_cex :
    (getMarketRate (some ⟨95/100, 5⟩) 10 none).1 = FALLBACK_RATE ∧
    FALLBACK_RATE ≠ 95/100 := by
  constructor
  · rfl
  · norm_num [FALLBACK_RATE]

/-- C8 amended: the market-rate getter never surfaces an error — its result
is always the fresh cached rate, the fetched feed value, or the hard-coded
fallback; a non-expired cached rate is returned as is; otherwise a refresh
is attempted, and on refresh failure the fallback constant 0.9995 is
returned even when a stale prior value exists. -/
theorem getMarketRate_fallback_behavior :
    (∀ (cached : Option CachedRate) (now : Nat) (feed : Option ℚ),
      (getMarketRate cached now feed).1 = FALLBACK_RATE ∨
      (∃ c, cached = some c ∧ (getMarketRate cached now feed).1 = c.rate) ∨
      (∃ r, feed = some r ∧ (getMarketRate cached now feed).1 = r)) ∧
    (∀ (c : CachedRate) (now : Nat) (feed : Option ℚ), now < c.expiresAt →
      (getMarketRate (some c) now feed).1 = c.rate) ∧
    (∀ (cached : Option CachedRate) (now : Nat) (r : ℚ),
      (∀ c, cached = some c → c.expiresAt ≤ now) →
      (getMarketRate cached now (some r)).1 = r) ∧
    (∀ (cached : Option CachedRate) (now : Nat),
      (∀ c, cached = some c → c.expiresAt ≤ now) →
      (getMarketRate cached now none).1 = FALLBACK_RATE) := by
  refine ⟨?_, ?_, ?_, ?_⟩
  · intro cached now feed
    match cached with
    | none =>
      match feed with
      | none => exact Or.inl rfl
      | some r => exact Or.inr (Or.inr ⟨r, rfl, rfl⟩)
    | some c =>
      by_cases hc : now < c.expiresAt
      · refine Or.inr (Or.inl ⟨c, rfl, ?_⟩)
        simp [getMarketRate, Option.filter, hc]
      · match feed with
        | none =>
          refine Or.inl ?_
          simp [getMarketRate, Option.filter, hc]
        | some r =>
          refine Or.inr (Or.inr ⟨r, rfl, ?_⟩)
          simp [getMarketRate, Option.filter, hc]
  · intro c now feed hc
    simp [getMarketRate, Option.filter, hc]
  · intro cached now r hst
    match cached with
    | none => rfl
    | some c =>
      have := hst c rfl
      simp [getMarketRate, Option.filter, Nat.not_lt.mpr this]
  · intro cached now hst
    match cached with
    | none => rfl
    | some c =>
      have := hst c rfl
      simp [getMarketRate, Option.filter, Nat.not_lt.mpr this]

/-- Witness for C8 (amended) at concrete cache states. -/
theorem getMarketRate_fallback_behavior_witness :
    ((10:Nat) < 20 ∧ (getMarketRate (some ⟨97/100, 20⟩) 10 none).1 = 97/100) ∧
    (getMarketRate (some ⟨95/100, 5⟩) 10 (some (98/100))).1 = 98/100 ∧
    (getMarketRate (some ⟨95/100, 5⟩) 10 none).1 = FALLBACK_RATE :=
  ⟨⟨by decide, getMarketRate_fallback_behavior.2.1 ⟨97/100, 20⟩ 10 none (by decide)⟩,
   getMarketRate_fallback_behavior.2.2.1 (some ⟨95/100, 5⟩) 10 (98/100)
     (fun c hc => by cases hc; decide),
   getMarketRate_fallback_behavior.2.2.2 (some ⟨95/100, 5⟩) 10
     (fun c hc => by cases hc; decide)⟩

end StripIntegrate
